import Mathlib

/-!
Verification development for the `nocks` prototype renderer.

The source (`src/main.rs`) is embedded shallowly:
* `f32` scalars of the input/game state are modelled as exact rationals `ℚ`
  (the claims about them concern control flow and exact arithmetic structure);
* `f32` scalars of the camera / matrix pipeline are modelled as reals `ℝ`
  (the claims about them involve trigonometry and normalization);
* GPU buffers hold the data uploaded to them; the windowing library is
  modelled as an event stream consumed by the frame loop.
-/

namespace Nocks

/-- Per-frame mutable input/look state (`struct GameState` in `main.rs`). -/
structure GameState where
  up : Bool
  down : Bool
  left : Bool
  right : Bool
  first_mouse : Bool
  last_mouse_x : ℚ
  last_mouse_y : ℚ
  yaw : ℚ
  pitch : ℚ
  deriving DecidableEq, Repr

/-- Source `GameState::new()`. -/
def GameState.new : GameState :=
  { up := false, down := false, left := false, right := false,
    first_mouse := true, last_mouse_x := 0, last_mouse_y := 0,
    yaw := 90, pitch := 0 }

/-- The keyboard keys the handler distinguishes (`glfw::Key` cases used). -/
inductive GKey where
  | w | s | a | d | escape | other
  deriving DecidableEq, Repr

/-- The window events the program reacts to (`glfw::WindowEvent` cases used).
`closeSignal` stands for the window-manager close request (window X button). -/
inductive WEvent where
  | keyPress (k : GKey)
  | keyRelease (k : GKey)
  | cursorPos (mx my : ℚ)
  | closeSignal
  | otherEvent
  deriving DecidableEq, Repr

/-- Source `const SENSITIVITY: f32 = 0.1;`. -/
def SENSITIVITY : ℚ := 1/10

/-- Source `fn handle_window_event(window, game_state, event)` from `main.rs`.
The first component of the result is the window's should-close flag
(`window.set_should_close(true)` on an escape press); the second is the
updated game state. The `closeSignal` and `otherEvent` cases fall into the
Rust `_ => {}` arm and change nothing here. -/
def handle_window_event (sc : Bool) (gs : GameState) : WEvent → Bool × GameState
  | .keyPress .escape => (true, gs)
  | .keyPress .w => (sc, { gs with up := true })
  | .keyPress .s => (sc, { gs with down := true })
  | .keyPress .a => (sc, { gs with left := true })
  | .keyPress .d => (sc, { gs with right := true })
  | .keyPress .other => (sc, gs)
  | .keyRelease .w => (sc, { gs with up := false })
  | .keyRelease .s => (sc, { gs with down := false })
  | .keyRelease .a => (sc, { gs with left := false })
  | .keyRelease .d => (sc, { gs with right := false })
  | .keyRelease .escape => (sc, gs)
  | .keyRelease .other => (sc, gs)
  | .cursorPos mx my =>
      let gs1 := if gs.first_mouse then
          { gs with last_mouse_x := mx, last_mouse_y := my, first_mouse := false }
        else gs
      let x_offset := (mx - gs1.last_mouse_x) * SENSITIVITY
      let y_offset := (gs1.last_mouse_y - my) * SENSITIVITY
      (sc, { gs1 with last_mouse_x := mx, last_mouse_y := my,
                      yaw := gs1.yaw - x_offset, pitch := gs1.pitch + y_offset })
  | .closeSignal => (sc, gs)
  | .otherEvent => (sc, gs)

/-- Modelled from the spec: "escape key or window-close signal sets a
close-requested flag". Delivering one polled event to the program: the
windowing library itself marks the window as should-close on a window-close
signal (that behaviour lives in glfw, not in `src/`); every other event is
dispatched to `handle_window_event` exactly as in the poll loop of `main`. -/
def pollEvent (sc : Bool) (gs : GameState) (e : WEvent) : Bool × GameState :=
  match e with
  | .closeSignal => (true, gs)
  | e => handle_window_event sc gs e

/-- One iteration's event drain: `for (_, event) in glfw::flush_messages(&events)`. -/
def processBatch (sc : Bool) (gs : GameState) (events : List WEvent) : Bool × GameState :=
  events.foldl (fun st e => pollEvent st.1 st.2 e) (sc, gs)

/-- The frame loop `while !window.should_close() { poll; update; render }`,
observed over a finite window of per-iteration event batches. The result
counts render submissions (`queue.submit` runs exactly once per executed
iteration). The should-close flag is tested at the top of the loop, before
the iteration's events are drained. -/
def runFrames (sc : Bool) (gs : GameState) : List (List WEvent) → Nat
  | [] => 0
  | batch :: rest =>
      if sc then 0
      else
        let st := processBatch sc gs batch
        runFrames st.1 st.2 rest + 1

/-- An event that requests closing: escape press or the window-close signal. -/
def isCloseEvent : WEvent → Bool
  | .keyPress .escape => true
  | .closeSignal => true
  | _ => false

/-- The coordinates of the last cursor-position event in a list, if any. -/
def lastCursor : List WEvent → Option (ℚ × ℚ)
  | [] => none
  | e :: rest =>
      match lastCursor rest with
      | some p => some p
      | none =>
          match e with
          | .cursorPos mx my => some (mx, my)
          | _ => none

/-! ## Map loading (`fn load_map` in `main.rs`)

The `mime` crate that deserializes the binary map file is an external
dependency (its parser is not in `src/`); `load_map` only consumes the shape
it yields through `mime_map.sectors`, `sector.vertex_buffer` (fields
`x`, `y`, `z`, `color[0..3]`) and `sector.index_buffer`. That shape is
embedded below, and the outcomes of `File::open`, `read_to_end` and
`mime::Map::deserialize` are taken as the input of `load_map`. -/

/-- A vertex as the deserialized map supplies it (`v.x`, `v.y`, `v.z`,
`v.color[0]`, `v.color[1]`, `v.color[2]`). -/
structure MimeVertex where
  x : ℚ
  y : ℚ
  z : ℚ
  color0 : ℚ
  color1 : ℚ
  color2 : ℚ
  deriving DecidableEq, Repr

/-- A sector of the deserialized map: a vertex buffer and a `u32` index
buffer. -/
structure MimeSector where
  vertex_buffer : List MimeVertex
  index_buffer : List Nat
  deriving DecidableEq, Repr

/-- The deserialized map (`mime::Map`): its sector list. -/
structure MimeMap where
  sectors : List MimeSector
  deriving DecidableEq, Repr

/-- Source `struct Vertex` from `main.rs`: position and RGB color. -/
structure Vertex where
  position : ℚ × ℚ × ℚ
  color : ℚ × ℚ × ℚ
  deriving DecidableEq, Repr

/-- Source `struct Mesh`: its GPU vertex/index buffers hold the uploaded data, and
`index_count` is set to the source index buffer's length
(`Mesh::from_data`). -/
structure Mesh where
  vertex_buffer : List Vertex
  index_buffer : List Nat
  index_count : Nat
  deriving DecidableEq, Repr

/-- Source `Mesh::from_data`: uploads the two buffers verbatim and records the
index count. -/
def Mesh.from_data (vertex_buffer : List Vertex) (index_buffer : List Nat) : Mesh :=
  { vertex_buffer := vertex_buffer, index_buffer := index_buffer,
    index_count := index_buffer.length }

/-- Source `struct Map`: the per-sector meshes. -/
structure GameMap where
  meshes : List Mesh
  deriving DecidableEq, Repr

/-- The loop body of `load_map`: one sector's vertices copied verbatim into
render vertices (position from `x`,`y`,`z`, color from `color[0..3]`). -/
def sectorVertex (v : MimeVertex) : Vertex :=
  { position := (v.x, v.y, v.z), color := (v.color0, v.color1, v.color2) }

/-- One sector's mesh, as built inside `load_map`'s `for sector in ...` loop. -/
def sectorMesh (s : MimeSector) : Mesh :=
  Mesh.from_data (s.vertex_buffer.map sectorVertex) s.index_buffer

/-- The possible outcomes of the I/O and parse stages that `load_map` runs
before touching the sector data: `File::open` may fail, `read_to_end` may
fail, `mime::Map::deserialize` may fail, or a `MimeMap` is produced. -/
inductive LoadInput where
  | openFail
  | readFail
  | parseFail
  | parsed (m : MimeMap)
  deriving DecidableEq, Repr

/-- How a call to `load_map` can end: an early `None` (the `.ok()?` paths),
a process abort (an `unwrap` panic or an out-of-bounds index panic), or
`Some(map)`. -/
inductive LoadResult where
  | none
  | panicked
  | ok (m : GameMap)
  deriving DecidableEq, Repr

/-- Source `fn load_map` from `main.rs`. `File::open(..).ok()?` and
`read_to_end(..).ok()?` return `None` on failure;
`mime::Map::deserialize(&data).unwrap()` panics on a parse error; then
`let sector = &mime_map.sectors[38];` panics whenever the map has 38 or
fewer sectors; otherwise every sector is turned into a mesh in order. -/
def load_map : LoadInput → LoadResult
  | .openFail => .none
  | .readFail => .none
  | .parseFail => .panicked
  | .parsed m =>
      if 38 < m.sectors.length then
        .ok { meshes := m.sectors.map sectorMesh }
      else
        .panicked

/-- Whether a load outcome hands a `Map` back to the caller. -/
def LoadResult.returnsMap : LoadResult → Bool
  | .ok _ => true
  | _ => false

/-! ## Camera movement and view direction (`main` loop, `Camera3D`)

These parts of the loop work on `f32` vectors through `glam`; they are
modelled over `ℝ`. -/

/-- A 3-component real vector (`glam::Vec3`). -/
structure Vec3R where
  x : ℝ
  y : ℝ
  z : ℝ

/-- Componentwise vector sum. -/
def v3add (a b : Vec3R) : Vec3R := ⟨a.x + b.x, a.y + b.y, a.z + b.z⟩

/-- Componentwise vector difference. -/
def v3sub (a b : Vec3R) : Vec3R := ⟨a.x - b.x, a.y - b.y, a.z - b.z⟩

/-- Scalar multiple of a vector. -/
def v3smul (c : ℝ) (v : Vec3R) : Vec3R := ⟨c * v.x, c * v.y, c * v.z⟩

/-- Source `Vec3::cross`. -/
def v3cross (a b : Vec3R) : Vec3R :=
  ⟨a.y * b.z - a.z * b.y, a.z * b.x - a.x * b.z, a.x * b.y - a.y * b.x⟩

/-- Source `Vec3::length`. -/
noncomputable def v3length (v : Vec3R) : ℝ :=
  Real.sqrt (v.x ^ 2 + v.y ^ 2 + v.z ^ 2)

/-- Source `Vec3::normalize`: the vector divided by its length (`glam` computes
`self * length().recip()`). -/
noncomputable def v3normalize (v : Vec3R) : Vec3R :=
  v3smul (v3length v)⁻¹ v

/-- Source `struct Camera3D`: position, front and up vectors. -/
structure Camera3D where
  pos : Vec3R
  front : Vec3R
  upv : Vec3R

/-- Source `const CAMERA_SPEED: f32 = 100.0;`. -/
def CAMERA_SPEED : ℝ := 100

/-- The movement block of the frame loop (`if game_state.up { camera.pos +=
(CAMERA_SPEED * camera.front) * dt } ...` and the three other intent
branches). There is no physics body: positions are integrated directly. -/
noncomputable def moveCamera (up down left right : Bool) (c : Camera3D) (dt : ℝ) : Camera3D :=
  let c := if up then
      { c with pos := v3add c.pos (v3smul dt (v3smul CAMERA_SPEED c.front)) }
    else c
  let c := if down then
      { c with pos := v3sub c.pos (v3smul dt (v3smul CAMERA_SPEED c.front)) }
    else c
  let c := if right then
      { c with pos := v3sub c.pos (v3smul dt (v3smul CAMERA_SPEED (v3normalize (v3cross c.front c.upv)))) }
    else c
  let c := if left then
      { c with pos := v3add c.pos (v3smul dt (v3smul CAMERA_SPEED (v3normalize (v3cross c.front c.upv)))) }
    else c
  c

/-- Source `f32::to_radians`. -/
noncomputable def toRadians (d : ℝ) : ℝ := d * (Real.pi / 180)

/-- The raw look direction built in the frame loop:
`Vec3::new(yaw.to_radians().cos() * pitch.to_radians().cos(),
pitch.to_radians().sin(), yaw.to_radians().sin() * pitch.to_radians().cos())`. -/
noncomputable def lookDirection (yaw pitch : ℝ) : Vec3R :=
  ⟨Real.cos (toRadians yaw) * Real.cos (toRadians pitch),
   Real.sin (toRadians pitch),
   Real.sin (toRadians yaw) * Real.cos (toRadians pitch)⟩

/-- Source `camera.front = direction.normalize();`. -/
noncomputable def cameraFront (yaw pitch : ℝ) : Vec3R :=
  v3normalize (lookDirection yaw pitch)

/-! ## Uniform block (`struct UniformBuffer`, `main` startup and loop) -/

/-- A 4×4 real matrix (`glam::Mat4`; the column serialization of
`write_cols_to_slice` is a bijective layout detail and is elided). -/
def Mat4 := Fin 4 → Fin 4 → ℝ

/-- Source `struct UniformBuffer`: projection, view and model matrices. -/
structure UniformBufferData where
  projection_matrix : Mat4
  view_matrix : Mat4
  model_matrix : Mat4

/-- Source `UniformBuffer::new` (which writes all three matrices via `update`). -/
def UniformBufferData.new (p v m : Mat4) : UniformBufferData :=
  { projection_matrix := p, view_matrix := v, model_matrix := m }

/-- Source `UniformBuffer::update_view`: overwrites the view matrix only. -/
def UniformBufferData.update_view (u : UniformBufferData) (v : Mat4) : UniformBufferData :=
  { u with view_matrix := v }

/-- Source `glam::Mat4::perspective_lh(fov_y, aspect, z_near, z_far)`:
`h = cos(fov_y/2)/sin(fov_y/2)`, `w = h/aspect`, `r = far/(far-near)`, with
columns `(w,0,0,0)`, `(0,h,0,0)`, `(0,0,r,1)`, `(0,0,-r*near,0)` (entry
`c i j` below is column `i`, row `j`). -/
noncomputable def perspective_lh (fovy aspect znear zfar : ℝ) : Mat4 :=
  fun i j =>
    let h := Real.cos (fovy / 2) / Real.sin (fovy / 2)
    let w := h / aspect
    let r := zfar / (zfar - znear)
    if i = 0 ∧ j = 0 then w
    else if i = 1 ∧ j = 1 then h
    else if i = 2 ∧ j = 2 then r
    else if i = 2 ∧ j = 3 then 1
    else if i = 3 ∧ j = 2 then -r * znear
    else 0

/-- Source `glam::Mat4::from_scale(s)`: the diagonal scale matrix. -/
def from_scale (sx sy sz : ℝ) : Mat4 :=
  fun i j =>
    if i = 0 ∧ j = 0 then sx
    else if i = 1 ∧ j = 1 then sy
    else if i = 2 ∧ j = 2 then sz
    else if i = 3 ∧ j = 3 then 1
    else 0

/-- Source `glam::Mat4::IDENTITY`. -/
def mat4Identity : Mat4 := fun i j => if i = j then 1 else 0

/-- The uniform block as `main` builds it before the loop:
`Mat4::perspective_lh(90.0f32.to_radians(), aspect_ratio, 0.1, 2000.0)`,
`Mat4::IDENTITY`, `Mat4::from_scale(Vec3::new(1.0, 1.0, 1.0))`. -/
noncomputable def startupUniform (aspect : ℝ) : UniformBufferData :=
  UniformBufferData.new
    (perspective_lh (toRadians 90) aspect (1/10) 2000)
    mat4Identity
    (from_scale 1 1 1)

/-- The uniform block after `n` frames, each frame running only
`uniform_buffer.update_view(camera.create_view_matrix())` before uploading
the whole block: the per-frame view matrices are folded in. -/
def framesUniform (u0 : UniformBufferData) (views : List Mat4) : UniformBufferData :=
  views.foldl UniformBufferData.update_view u0

/-! ## Concrete fixtures -/

/-- A game state in the tracking phase of mouse-look (first sample consumed,
reference latched at the origin, level view). -/
def gsTracking : GameState :=
  { up := false, down := false, left := false, right := false,
    first_mouse := false, last_mouse_x := 0, last_mouse_y := 0,
    yaw := 0, pitch := 0 }

/-- A sector with a single triangle. -/
def exSector : MimeSector :=
  { vertex_buffer :=
      [⟨0, 0, 0, 1, 0, 0⟩, ⟨1, 0, 0, 0, 1, 0⟩, ⟨0, 1, 0, 0, 0, 1⟩],
    index_buffer := [0, 1, 2] }

/-- A well-formed map holding exactly one sector. -/
def exMap1 : MimeMap := { sectors := [exSector] }

/-- A well-formed map holding 39 sectors. -/
def exMap39 : MimeMap := { sectors := List.replicate 39 exSector }

/-! ## Claims -/

/-- C1 (counterexample): the map `exMap1` is well formed and deserializes to
1 sector, yet `load_map` returns no `Map` at all: the unconditional
`&mime_map.sectors[38]` access panics, so the promised one-mesh `Map` is
never produced. -/
theorem load_map_small_map_counterexample :
    exMap1.sectors.length = 1 ∧
    load_map (.parsed exMap1) = .panicked ∧
    (load_map (.parsed exMap1)).returnsMap = false := by
  refine ⟨rfl, by decide, by decide⟩

/-- C1 (amended): for every map whose data deserializes to more than 38
sectors, `load_map` returns a `Map` with exactly one mesh per source sector,
in order; the `i`-th mesh copies the `i`-th sector's vertex buffer verbatim
(position and color), copies its index buffer verbatim, and records that
index buffer's length as its index count. (No floor/wall split or
non-emptiness holds: each sector yields a single combined mesh, and maps of
38 or fewer sectors make the loader panic.) -/
theorem load_map_builds_mesh_per_sector (m : MimeMap) (h : 38 < m.sectors.length) :
    ∃ mp, load_map (.parsed m) = .ok mp ∧
      mp.meshes.length = m.sectors.length ∧
      ∀ i (hi : i < m.sectors.length) (hi2 : i < mp.meshes.length),
        (mp.meshes.get ⟨i, hi2⟩).vertex_buffer
            = ((m.sectors.get ⟨i, hi⟩).vertex_buffer).map sectorVertex ∧
        (mp.meshes.get ⟨i, hi2⟩).index_buffer
            = (m.sectors.get ⟨i, hi⟩).index_buffer ∧
        (mp.meshes.get ⟨i, hi2⟩).index_count
            = (m.sectors.get ⟨i, hi⟩).index_buffer.length := by
  refine ⟨{ meshes := m.sectors.map sectorMesh }, ?_, ?_, ?_⟩
  · simp [load_map, h]
  · simp
  · intro i hi hi2
    simp [List.get_eq_getElem, List.getElem_map, sectorMesh, Mesh.from_data]

/-- C1 (witness for the amended theorem). -/
theorem load_map_builds_mesh_per_sector_witness :
    38 < exMap39.sectors.length ∧
    (∃ mp, load_map (.parsed exMap39) = .ok mp ∧
      mp.meshes.length = exMap39.sectors.length ∧
      ∀ i (hi : i < exMap39.sectors.length) (hi2 : i < mp.meshes.length),
        (mp.meshes.get ⟨i, hi2⟩).vertex_buffer
            = ((exMap39.sectors.get ⟨i, hi⟩).vertex_buffer).map sectorVertex ∧
        (mp.meshes.get ⟨i, hi2⟩).index_buffer
            = (exMap39.sectors.get ⟨i, hi⟩).index_buffer ∧
        (mp.meshes.get ⟨i, hi2⟩).index_count
            = (exMap39.sectors.get ⟨i, hi⟩).index_buffer.length) :=
  ⟨by decide, load_map_builds_mesh_per_sector exMap39 (by decide)⟩

/-- C3 (counterexample): in tracking state with reference `(0, 0)`, the
cursor sample `(0, 10)` has `delta = current - last = (0, 10)`; the claim
predicts `pitch + delta_y * sensitivity = 1`, but the handler computes
`y_offset = last - current` and produces `pitch = -1`. -/
theorem mouse_pitch_sign_counterexample :
    (handle_window_event false gsTracking (.cursorPos 0 10)).2.pitch
        ≠ gsTracking.pitch + ((10 : ℚ) - gsTracking.last_mouse_y) * SENSITIVITY ∧
    (handle_window_event false gsTracking (.cursorPos 0 10)).2.pitch
        = gsTracking.pitch - ((10 : ℚ) - gsTracking.last_mouse_y) * SENSITIVITY := by
  constructor <;> simp [handle_window_event, gsTracking, SENSITIVITY]
  all_goals norm_num

/-- C3 (amended): for every cursor sample after the first, with latched
position `last` and current position `current`, the handler scales the
offsets by the fixed sensitivity `0.1`, subtracts the scaled
`current.x - last.x` from yaw, adds the scaled `last.y - current.y` to pitch
(equivalently: subtracts the scaled delta-y, where `delta = current - last`),
and sets `last` to `current`; the should-close flag and every other field
are untouched. -/
theorem mouse_tracking_update (sc : Bool) (gs : GameState) (mx my : ℚ)
    (h : gs.first_mouse = false) :
    handle_window_event sc gs (.cursorPos mx my) =
      (sc, { gs with last_mouse_x := mx, last_mouse_y := my,
                     yaw := gs.yaw - (mx - gs.last_mouse_x) * SENSITIVITY,
                     pitch := gs.pitch + (gs.last_mouse_y - my) * SENSITIVITY }) := by
  simp [handle_window_event, h]

/-- C3 (witness for the amended theorem). -/
theorem mouse_tracking_update_witness :
    gsTracking.first_mouse = false ∧
    handle_window_event false gsTracking (.cursorPos 3 10) =
      (false, { gsTracking with
                  last_mouse_x := 3, last_mouse_y := 10,
                  yaw := gsTracking.yaw - (3 - gsTracking.last_mouse_x) * SENSITIVITY,
                  pitch := gsTracking.pitch + (gsTracking.last_mouse_y - 10) * SENSITIVITY }) :=
  ⟨rfl, mouse_tracking_update false gsTracking 3 10 rfl⟩

/-- C4: when the first-sample flag is set, a cursor sample only latches the
sampled position as the reference and clears the flag; yaw and pitch are
unchanged (the offsets computed after latching are exactly zero). -/
theorem first_mouse_sample_latches_only (sc : Bool) (gs : GameState) (mx my : ℚ)
    (h : gs.first_mouse = true) :
    handle_window_event sc gs (.cursorPos mx my) =
      (sc, { gs with first_mouse := false, last_mouse_x := mx, last_mouse_y := my }) := by
  simp [handle_window_event, h]

/-- C4 (witness): the startup state has the first-sample flag set, and the
first sample at `(5, 7)` only latches. -/
theorem first_mouse_sample_latches_only_witness :
    GameState.new.first_mouse = true ∧
    handle_window_event false GameState.new (.cursorPos 5 7) =
      (false, { GameState.new with
                  first_mouse := false, last_mouse_x := 5, last_mouse_y := 7 }) :=
  ⟨rfl, first_mouse_sample_latches_only false GameState.new 5 7 rfl⟩

/-- C7: whenever the load fails (file cannot be opened, short read, or parse
error), `load_map` never hands a `Map` to the caller: open/read failures
return `None`, and a parse error panics at the `unwrap`. -/
theorem load_failure_returns_no_map (inp : LoadInput)
    (h : inp = .openFail ∨ inp = .readFail ∨ inp = .parseFail) :
    (load_map inp).returnsMap = false := by
  rcases h with h | h | h <;> subst h <;> rfl

/-- C7 (witness): a failed file open yields no map. -/
theorem load_failure_returns_no_map_witness :
    (LoadInput.openFail = LoadInput.openFail ∨ LoadInput.openFail = LoadInput.readFail
      ∨ LoadInput.openFail = LoadInput.parseFail) ∧
    (load_map LoadInput.openFail).returnsMap = false :=
  ⟨Or.inl rfl, load_failure_returns_no_map LoadInput.openFail (Or.inl rfl)⟩

/-- C9: each movement-key press sets exactly its intent flag to true and each
release sets it to false, with no debounce; the rest of the game state and
the should-close flag are untouched (the result is the input state with only
that one flag replaced). -/
theorem movement_key_sets_only_its_flag (sc : Bool) (gs : GameState) :
    handle_window_event sc gs (.keyPress .w) = (sc, { gs with up := true }) ∧
    handle_window_event sc gs (.keyPress .s) = (sc, { gs with down := true }) ∧
    handle_window_event sc gs (.keyPress .a) = (sc, { gs with left := true }) ∧
    handle_window_event sc gs (.keyPress .d) = (sc, { gs with right := true }) ∧
    handle_window_event sc gs (.keyRelease .w) = (sc, { gs with up := false }) ∧
    handle_window_event sc gs (.keyRelease .s) = (sc, { gs with down := false }) ∧
    handle_window_event sc gs (.keyRelease .a) = (sc, { gs with left := false }) ∧
    handle_window_event sc gs (.keyRelease .d) = (sc, { gs with right := false }) :=
  ⟨rfl, rfl, rfl, rfl, rfl, rfl, rfl, rfl⟩

/-! ## Helper lemmas about the event pump -/

/-- Events other than cursor samples never touch the mouse-tracking fields. -/
lemma pollEvent_preserves_mouse (sc : Bool) (gs : GameState) (e : WEvent)
    (h : ∀ mx my, e ≠ WEvent.cursorPos mx my) :
    (pollEvent sc gs e).2.first_mouse = gs.first_mouse ∧
    (pollEvent sc gs e).2.last_mouse_x = gs.last_mouse_x ∧
    (pollEvent sc gs e).2.last_mouse_y = gs.last_mouse_y := by
  cases e with
  | keyPress k => cases k <;> simp [pollEvent, handle_window_event]
  | keyRelease k => cases k <;> simp [pollEvent, handle_window_event]
  | cursorPos mx my => exact absurd rfl (h mx my)
  | closeSignal => simp [pollEvent]
  | otherEvent => simp [pollEvent, handle_window_event]

/-- A cursor sample always ends with the tracking flag cleared and the
reference latched at the sample's coordinates, whichever branch ran. -/
lemma pollEvent_cursor_latches (sc : Bool) (gs : GameState) (mx my : ℚ) :
    (pollEvent sc gs (.cursorPos mx my)).2.first_mouse = false ∧
    (pollEvent sc gs (.cursorPos mx my)).2.last_mouse_x = mx ∧
    (pollEvent sc gs (.cursorPos mx my)).2.last_mouse_y = my := by
  by_cases h : gs.first_mouse = true
  all_goals simp [pollEvent, handle_window_event, h]

/-- Unrolling `processBatch` one event at a time. -/
lemma processBatch_cons (sc : Bool) (gs : GameState) (e : WEvent) (rest : List WEvent) :
    processBatch sc gs (e :: rest)
      = processBatch (pollEvent sc gs e).1 (pollEvent sc gs e).2 rest := by
  simp [processBatch, List.foldl_cons]

/-- A batch with no cursor sample leaves the mouse-tracking fields alone. -/
lemma processBatch_no_cursor (events : List WEvent) :
    ∀ sc gs, lastCursor events = none →
      (processBatch sc gs events).2.first_mouse = gs.first_mouse ∧
      (processBatch sc gs events).2.last_mouse_x = gs.last_mouse_x ∧
      (processBatch sc gs events).2.last_mouse_y = gs.last_mouse_y := by
  induction events with
  | nil => intro sc gs _; exact ⟨rfl, rfl, rfl⟩
  | cons e rest ih =>
      intro sc gs h
      have hrest : lastCursor rest = none := by
        cases hr : lastCursor rest
        · rfl
        · simp [lastCursor, hr] at h
      have hnc : ∀ mx my, e ≠ WEvent.cursorPos mx my := by
        intro mx my he
        subst he
        simp [lastCursor, hrest] at h
      rw [processBatch_cons]
      have h1 := pollEvent_preserves_mouse sc gs e hnc
      have h2 := ih (pollEvent sc gs e).1 (pollEvent sc gs e).2 hrest
      exact ⟨h2.1.trans h1.1, h2.2.1.trans h1.2.1, h2.2.2.trans h1.2.2⟩

/-- The should-close flag, once set, survives any further event. -/
lemma pollEvent_keeps_close (gs : GameState) (e : WEvent) :
    (pollEvent true gs e).1 = true := by
  cases e with
  | keyPress k => cases k <;> simp [pollEvent, handle_window_event]
  | keyRelease k => cases k <;> simp [pollEvent, handle_window_event]
  | cursorPos mx my => simp [pollEvent, handle_window_event]
  | closeSignal => simp [pollEvent]
  | otherEvent => simp [pollEvent, handle_window_event]

/-- The should-close flag, once set, survives a whole batch. -/
lemma processBatch_keeps_close (events : List WEvent) :
    ∀ gs, (processBatch true gs events).1 = true := by
  induction events with
  | nil => intro gs; rfl
  | cons e rest ih =>
      intro gs
      rw [processBatch_cons, pollEvent_keeps_close]
      exact ih _

/-- A close event sets the should-close flag. -/
lemma pollEvent_close_sets (sc : Bool) (gs : GameState) (e : WEvent)
    (h : isCloseEvent e = true) :
    (pollEvent sc gs e).1 = true := by
  cases e with
  | keyPress k => cases k <;> simp_all [isCloseEvent, pollEvent, handle_window_event]
  | keyRelease k => cases k <;> simp_all [isCloseEvent]
  | cursorPos mx my => simp_all [isCloseEvent]
  | closeSignal => simp [pollEvent]
  | otherEvent => simp_all [isCloseEvent]

/-- A batch containing a close event ends with the should-close flag set. -/
lemma processBatch_close (events : List WEvent) :
    ∀ sc gs, (∃ e ∈ events, isCloseEvent e = true) →
      (processBatch sc gs events).1 = true := by
  induction events with
  | nil => intro sc gs h; simp at h
  | cons e rest ih =>
      intro sc gs h
      rw [processBatch_cons]
      by_cases hc : isCloseEvent e = true
      · rw [pollEvent_close_sets sc gs e hc]
        exact processBatch_keeps_close rest _
      · rcases h with ⟨e', he', hce'⟩
        rcases List.mem_cons.mp he' with rfl | hmem
        · exact absurd hce' hc
        · exact ih _ _ ⟨e', hmem, hce'⟩

/-- With the should-close flag already set, the loop renders nothing more. -/
lemma runFrames_closed (gs : GameState) (batches : List (List WEvent)) :
    runFrames true gs batches = 0 := by
  cases batches <;> rfl

/-! ## Claims (continued) -/

/-- C6: if some iteration's event batch contains a close request (escape
press or window-close signal), the loop submits at most `i + 1` renders — the
iteration that saw the event finishes, and no later iteration ever renders
(the flag is tested at the top of the loop). -/
theorem close_request_stops_loop (gs : GameState) (batches : List (List WEvent))
    (i : Nat) (h : ∃ e ∈ batches.getD i [], isCloseEvent e = true) :
    runFrames false gs batches ≤ i + 1 := by
  induction batches generalizing i gs with
  | nil => simp [runFrames]
  | cons b rest ih =>
      show (if false = true then 0 else
        runFrames (processBatch false gs b).1 (processBatch false gs b).2 rest + 1) ≤ i + 1
      rw [if_neg (by simp)]
      cases i with
      | zero =>
          have hb : (processBatch false gs b).1 = true := processBatch_close b false gs (by simpa using h)
          rw [hb, runFrames_closed]
      | succ j =>
          have h' : ∃ e ∈ rest.getD j [], isCloseEvent e = true := by simpa using h
          cases hsc : (processBatch false gs b).1 with
          | true => rw [runFrames_closed]; omega
          | false =>
              have := ih (processBatch false gs b).2 j h'
              omega

/-- C6 (witness): a batch whose only event is an escape press, followed by
another iteration's batch, yields at most one render submission. -/
theorem close_request_stops_loop_witness :
    (∃ e ∈ [[WEvent.keyPress GKey.escape], [WEvent.otherEvent]].getD 0 [],
        isCloseEvent e = true) ∧
    runFrames false GameState.new [[WEvent.keyPress GKey.escape], [WEvent.otherEvent]] ≤ 0 + 1 :=
  ⟨⟨WEvent.keyPress GKey.escape, by decide, rfl⟩,
    close_request_stops_loop GameState.new
      [[WEvent.keyPress GKey.escape], [WEvent.otherEvent]] 0
      ⟨WEvent.keyPress GKey.escape, by decide, rfl⟩⟩

/-- C10: after any event sequence whose most recent cursor sample is
`(mx, my)`, the state satisfies the invariant: the first-sample flag is
false and the latched reference equals exactly that sample's coordinates —
the first cursor event establishes it, and every later event preserves it
(later cursor events re-establish it at their own coordinates). -/
theorem cursor_latch_invariant (events : List WEvent) :
    ∀ sc gs mx my, lastCursor events = some (mx, my) →
      (processBatch sc gs events).2.first_mouse = false ∧
      (processBatch sc gs events).2.last_mouse_x = mx ∧
      (processBatch sc gs events).2.last_mouse_y = my := by
  induction events with
  | nil => intro sc gs mx my h; simp [lastCursor] at h
  | cons e rest ih =>
      intro sc gs mx my h
      rw [processBatch_cons]
      cases hr : lastCursor rest with
      | some p =>
          have hp : p = (mx, my) := by simp [lastCursor, hr] at h; exact h
          exact ih _ _ mx my (hr.trans (by rw [hp]))
      | none =>
          have he : e = WEvent.cursorPos mx my := by
            cases e <;> simp_all [lastCursor]
          subst he
          have h1 := pollEvent_cursor_latches sc gs mx my
          have h2 := processBatch_no_cursor rest (pollEvent sc gs (.cursorPos mx my)).1
            (pollEvent sc gs (.cursorPos mx my)).2 hr
          exact ⟨h2.1.trans h1.1, h2.2.1.trans h1.2.1, h2.2.2.trans h1.2.2⟩

/-- C10 (witness): a cursor sample at `(3, 4)` followed by a key press leaves
the invariant holding at `(3, 4)`. -/
theorem cursor_latch_invariant_witness :
    lastCursor [WEvent.cursorPos 3 4, WEvent.keyPress GKey.w] = some (3, 4) ∧
    ((processBatch false GameState.new
        [WEvent.cursorPos 3 4, WEvent.keyPress GKey.w]).2.first_mouse = false ∧
     (processBatch false GameState.new
        [WEvent.cursorPos 3 4, WEvent.keyPress GKey.w]).2.last_mouse_x = 3 ∧
     (processBatch false GameState.new
        [WEvent.cursorPos 3 4, WEvent.keyPress GKey.w]).2.last_mouse_y = 4) :=
  ⟨rfl, cursor_latch_invariant [WEvent.cursorPos 3 4, WEvent.keyPress GKey.w]
      false GameState.new 3 4 rfl⟩

/-! ## Real-valued claims: movement, view direction, uniform block -/

/-- A camera looking straight up, as mouse-look can produce (pitch `90°`,
yaw `90°` gives exactly this front vector), positioned at the origin. -/
noncomputable def camVert : Camera3D :=
  { pos := ⟨0, 0, 0⟩, front := ⟨0, 1, 0⟩, upv := ⟨0, 1, 0⟩ }

/-- C2 (counterexample): with the move-forward intent active, front vector
`(0, 1, 0)` and `dt = 1`, the camera's vertical coordinate moves from `0` to
`100`: there is no body velocity and the vertical component is not zeroed,
so forward movement does produce vertical displacement. -/
theorem forward_move_vertical_counterexample :
    (moveCamera true false false false camVert 1).pos.y = 100 ∧
    camVert.pos.y = 0 ∧
    (moveCamera true false false false camVert 1).pos.y ≠ camVert.pos.y := by
  refine ⟨?_, rfl, ?_⟩ <;> simp [moveCamera, camVert, v3add, v3smul, CAMERA_SPEED]

/-- C2 (amended): whenever the move-forward intent is active on an update
tick (and no other intent), the camera position — there is no physics body —
is advanced by `camera.front * CAMERA_SPEED * dt` using the full 3D front
vector; in particular the vertical coordinate changes by
`CAMERA_SPEED * front.y * dt`, so forward movement with a non-horizontal
front produces vertical displacement. -/
theorem forward_move_integrates_front (c : Camera3D) (dt : ℝ) :
    moveCamera true false false false c dt
      = { c with pos := v3add c.pos (v3smul dt (v3smul CAMERA_SPEED c.front)) } ∧
    (moveCamera true false false false c dt).pos.y
      = c.pos.y + CAMERA_SPEED * c.front.y * dt := by
  refine ⟨rfl, ?_⟩
  show c.pos.y + dt * (CAMERA_SPEED * c.front.y) = c.pos.y + CAMERA_SPEED * c.front.y * dt
  ring

/-- The raw spherical-to-Cartesian direction already has unit length:
`(cos yaw · cos pitch)² + (sin pitch)² + (sin yaw · cos pitch)² = 1`. -/
lemma lookDirection_length (yaw pitch : ℝ) :
    v3length (lookDirection yaw pitch) = 1 := by
  unfold v3length lookDirection
  have hy := Real.sin_sq_add_cos_sq (toRadians yaw)
  have hp := Real.sin_sq_add_cos_sq (toRadians pitch)
  have key : (Real.cos (toRadians yaw) * Real.cos (toRadians pitch)) ^ 2
      + Real.sin (toRadians pitch) ^ 2
      + (Real.sin (toRadians yaw) * Real.cos (toRadians pitch)) ^ 2 = 1 := by
    nlinarith [hy, hp]
  rw [key]
  exact Real.sqrt_one

/-- C5: for every yaw/pitch pair, the frame loop's view direction equals the
normalization of `(cos yaw · cos pitch, sin pitch, sin yaw · cos pitch)`
(angles taken in radians) and has exactly unit length — the raw vector is
already unit, so normalizing divides by one. -/
theorem view_direction_unit_length (yaw pitch : ℝ) :
    cameraFront yaw pitch = v3normalize (lookDirection yaw pitch) ∧
    v3length (cameraFront yaw pitch) = 1 := by
  have hl := lookDirection_length yaw pitch
  have hfront : cameraFront yaw pitch = lookDirection yaw pitch := by
    unfold cameraFront v3normalize
    rw [hl]
    simp [v3smul]
  exact ⟨rfl, by rw [hfront, hl]⟩

/-- Folding any number of per-frame view updates into the uniform block
never touches the projection or model matrices. -/
lemma framesUniform_keeps_projection_model (views : List Mat4) :
    ∀ u0 : UniformBufferData,
      (framesUniform u0 views).projection_matrix = u0.projection_matrix ∧
      (framesUniform u0 views).model_matrix = u0.model_matrix := by
  induction views with
  | nil => intro u0; exact ⟨rfl, rfl⟩
  | cons v rest ih =>
      intro u0
      exact ih (u0.update_view v)

/-- C8: the per-frame upload changes only the view matrix: `update_view`
replaces exactly the view field, and after any sequence of frames the
projection matrix is still the startup
`perspective_lh(90°, aspect, 0.1, 2000)` and the model matrix is still the
startup identity scale. -/
theorem uniform_upload_only_view (aspect : ℝ) (views : List Mat4)
    (u : UniformBufferData) (v : Mat4) :
    (u.update_view v).projection_matrix = u.projection_matrix ∧
    (u.update_view v).model_matrix = u.model_matrix ∧
    (u.update_view v).view_matrix = v ∧
    (framesUniform (startupUniform aspect) views).projection_matrix
        = perspective_lh (toRadians 90) aspect (1/10) 2000 ∧
    (framesUniform (startupUniform aspect) views).model_matrix = from_scale 1 1 1 := by
  refine ⟨rfl, rfl, rfl, ?_, ?_⟩
  · exact (framesUniform_keeps_projection_model views (startupUniform aspect)).1
  · exact (framesUniform_keeps_projection_model views (startupUniform aspect)).2

end Nocks
